import Mathlib

/-!
Verification of the NASA-Mission-Control-Dashboard backend (Express API
gateway) against its natural-language specification.

The JavaScript sources are shallowly embedded into Lean:

* JavaScript query-string values are modelled by `JSValue` (strings,
  numbers, booleans, `null`, `undefined`); a validator that can raise a
  `TypeError` is modelled with an `Option` result where `none` means
  "an exception was thrown".
* `new Date("YYYY-MM-DD")` parses an ISO calendar-date string to UTC
  midnight; a string whose components do not denote an existing
  proleptic-Gregorian calendar day yields `Invalid Date` (whose getters
  return `NaN`, so the round-trip comparison in `validateDate` fails).
  This is embedded by `parseDateDay`, which returns the epoch day
  number (days since 1970-01-01) exactly when the string is a valid
  `YYYY-MM-DD` date.  The server is assumed to run with a UTC local
  time zone, so the local-time getters used by `validateDate` agree
  with the UTC values produced by the parser.
* Differences of two such dates are exact multiples of 86400000 ms, so
  the `Math.ceil((end - start) / 86400000)` in the sources is embedded
  as a difference of epoch day numbers.
* JavaScript numbers appearing in NEO payloads (diameters, distances,
  velocities) are modelled as rationals.
-/

/-! ## Calendar arithmetic (semantics of `new Date("YYYY-MM-DD")`) -/

/-- Proleptic-Gregorian leap-year test, as used by the ECMAScript date
arithmetic. -/
def isLeapYear (y : Int) : Bool :=
  y % 4 = 0 && (y % 100 ≠ 0 || y % 400 = 0)

/-- Number of days in month `m` (1–12) of year `y`. -/
def daysInMonth (y m : Int) : Int :=
  if m = 2 then (if isLeapYear y then 29 else 28)
  else if m = 4 || m = 6 || m = 9 || m = 11 then 30
  else 31

/-- Epoch day number (days since 1970-01-01) of the civil date
`(y, m, d)`, for the proleptic Gregorian calendar; this is the value of
`new Date("YYYY-MM-DD").getTime() / 86400000` for a valid date string.
All divisions are Euclidean, which agrees with the intended
floor-division on every operand arising here. -/
def daysFromCivil (y m d : Int) : Int :=
  let yp := if m ≤ 2 then y - 1 else y
  let era := yp / 400
  let yoe := yp - era * 400
  let mp := (m + 9) % 12
  let doy := (153 * mp + 2) / 5 + d - 1
  let doe := yoe * 365 + yoe / 4 - yoe / 100 + doy
  era * 146097 + doe - 719468

/-- Milliseconds per day. -/
def msPerDay : Int := 86400000

/-- Decimal digit test on a character (the `\d` of the source regexes,
restricted to ASCII as in JavaScript). -/
def isDigitChar (c : Char) : Bool :=
  '0' ≤ c && c ≤ '9'

/-- Numeric value of a decimal digit character. -/
def digitVal (c : Char) : Int :=
  Int.ofNat (c.toNat - '0'.toNat)

/-- Syntactic match of the regex `^\d{4}-\d{2}-\d{2}$`, returning the
three numeric components on success. -/
def parseYmd (s : String) : Option (Int × Int × Int) :=
  match s.data with
  | [y1, y2, y3, y4, '-', m1, m2, '-', d1, d2] =>
    if isDigitChar y1 && isDigitChar y2 && isDigitChar y3 && isDigitChar y4 &&
       isDigitChar m1 && isDigitChar m2 && isDigitChar d1 && isDigitChar d2 then
      some (digitVal y1 * 1000 + digitVal y2 * 100 + digitVal y3 * 10 + digitVal y4,
            digitVal m1 * 10 + digitVal m2,
            digitVal d1 * 10 + digitVal d2)
    else none
  | _ => none

/-- Existence test for a civil date: month in 1–12 and day in range for
that month.  `new Date` on a `YYYY-MM-DD` string yields `Invalid Date`
exactly when this fails. -/
def civilValid (y m d : Int) : Bool :=
  1 ≤ m && m ≤ 12 && 1 ≤ d && d ≤ daysInMonth y m

/-- Semantics of parsing a date string: the epoch day number when the
string matches `YYYY-MM-DD` and denotes an existing calendar day,
`none` otherwise (`Invalid Date`). -/
def parseDateDay (s : String) : Option Int :=
  match parseYmd s with
  | some (y, m, d) => if civilValid y m d then some (daysFromCivil y m d) else none
  | none => none

/-! ## JavaScript values and the Validator component
(src/backend/src/utils/validators.js) -/

/-- Model of a raw JavaScript value as received from a query string or
an arbitrary caller.  Numbers are modelled as integers (floats play no
role in any validator branch used here). -/
inductive JSValue where
  | vUndef : JSValue
  | vNull : JSValue
  | vBool (b : Bool) : JSValue
  | vNum (n : Int) : JSValue
  | vStr (s : String) : JSValue
deriving DecidableEq

/-- ASCII lower-casing of a character, the relevant fragment of
JavaScript `toLowerCase` (all rover and camera names are ASCII). -/
def asciiLower (c : Char) : Char :=
  if 'A' ≤ c && c ≤ 'Z' then Char.ofNat (c.toNat + 32) else c

/-- ASCII upper-casing of a character, the relevant fragment of
JavaScript `toUpperCase`. -/
def asciiUpper (c : Char) : Char :=
  if 'a' ≤ c && c ≤ 'z' then Char.ofNat (c.toNat - 32) else c

/-- String lower-casing (`s.toLowerCase()`), ASCII fragment. -/
def toLowerStr (s : String) : String :=
  String.mk (s.data.map asciiLower)

/-- String upper-casing (`s.toUpperCase()`), ASCII fragment. -/
def toUpperStr (s : String) : String :=
  String.mk (s.data.map asciiUpper)

/-- String-level date validation: format `YYYY-MM-DD` and round trip
through date parsing to the same year, month and day.  This is
`validateDate` specialised to a (non-empty) string argument. -/
def validateDateStr (s : String) : Bool :=
  (parseDateDay s).isSome

/-- Embedding of `validateDate(dateString)`.  The result is wrapped in
`Option` with `none` standing for a thrown exception; every branch of
the source returns normally, so every branch here is `some`.  A falsy
or non-string argument returns `false` via the guard clause. -/
def validateDate (v : JSValue) : Option Bool :=
  match v with
  | .vStr s => if s = "" then some false else some (validateDateStr s)
  | _ => some false

/-- Embedding of `validateCamera(camera, rover, validCameras)`.  The
catalog object is modelled as an association list from rover name to
camera list.  The source checks only `camera` for being a string before
evaluating `rover.toLowerCase()`; when `rover` is not a string that
call raises a `TypeError`, modelled by `none`. -/
def validateCamera (camera rover : JSValue)
    (validCameras : List (String × List String)) : Option Bool :=
  match camera with
  | .vStr c =>
    if c = "" then some false
    else
      match rover with
      | .vStr r =>
        match (validCameras.find? (fun p => p.1 = toLowerStr r)) with
        | none => some false
        | some p => some (p.2.contains (toUpperStr c))
      | _ => none
  | _ => some false

/-- Result of `validateDateRange`: either a failure carrying a message
or a success carrying the inclusive day count. -/
inductive DateRangeResult where
  | invalid (message : String) : DateRangeResult
  | valid (days : Int) : DateRangeResult
deriving DecidableEq

/-- Embedding of `validateDateRange(startDate, endDate, maxDays)`.
`daysDiff` is `Math.ceil((end - start) / 86400000)`, which for two
valid dates is exactly the difference of epoch day numbers. -/
def validateDateRange (startDate endDate : String) (maxDays : Int) : DateRangeResult :=
  if ¬ validateDateStr startDate then .invalid "Invalid start date format"
  else if ¬ validateDateStr endDate then .invalid "Invalid end date format"
  else
    let ds := (parseDateDay startDate).getD 0
    let de := (parseDateDay endDate).getD 0
    if ds > de then .invalid "Start date must be before or equal to end date"
    else
      let daysDiff := de - ds
      if daysDiff > maxDays then
        .invalid ("Date range cannot exceed " ++ toString maxDays ++ " days")
      else .valid (daysDiff + 1)

/-- Validation rule for one query parameter, as passed to
`validateQueryParams` (a required flag, an optional validator function
and an optional custom error message). -/
structure QueryRule where
  required : Bool
  validator : Option (JSValue → Bool)
  message : Option String

/-- Test used twice by `validateQueryParams`:
`value === undefined || value === null || value === ''`. -/
def isEmptyParam : JSValue → Bool
  | .vUndef => true
  | .vNull => true
  | .vStr s => s = ""
  | _ => false

/-- Errors contributed by a single rule of `validateQueryParams`, in
source order: a required-but-absent error, silent skip of an absent
optional value, then the validator with the rule's message (an absent
or falsy message falls back to the generic one). -/
def ruleErrors (params : String → JSValue) (kr : String × QueryRule) : List String :=
  let value := params kr.1
  if kr.2.required && isEmptyParam value then [kr.1 ++ " is required"]
  else if isEmptyParam value then []
  else
    match kr.2.validator with
    | some f =>
      if f value then []
      else
        match kr.2.message with
        | some m => if m = "" then ["Invalid " ++ kr.1] else [m]
        | none => ["Invalid " ++ kr.1]
    | none => []

/-- Embedding of `validateQueryParams(params, rules)`: the loop over
the rules accumulating `errors`, returning `isValid` together with the
aggregated error list. -/
def validateQueryParams (params : String → JSValue)
    (rules : List (String × QueryRule)) : Bool × List String :=
  let errors := rules.foldl (fun acc kr => acc ++ ruleErrors params kr) []
  (errors.isEmpty, errors)

/-! ## NEO data model and derived statistics (src/unnamed/part_011) -/

/-- One entry of `close_approach_data` in a NASA NEO payload.
`missKm` and `velocityKmh` model the numeric values obtained by
`parseFloat` on the corresponding payload strings. -/
structure CloseApproach where
  closeApproachDate : String
  missKm : Rat
  velocityKmh : Rat

/-- One near-earth object of a NEO payload.  `estimatedDiameterMaxKm`
models `estimated_diameter.kilometers.estimated_diameter_max`. -/
structure NeoObject where
  objId : String
  name : String
  isPotentiallyHazardousAsteroid : Bool
  estimatedDiameterMaxKm : Rat
  closeApproachData : List CloseApproach

/-- Embedding of the helper `categorizeSize(diameterKm)`. -/
def categorizeSize (diameterKm : Rat) : String :=
  if diameterKm < 0.001 then "TINY"
  else if diameterKm < 0.01 then "SMALL"
  else if diameterKm < 0.1 then "MEDIUM"
  else if diameterKm < 1 then "LARGE"
  else "MASSIVE"

/-- Epoch-millisecond value of `new Date(approach.close_approach_date)`
(UTC midnight of the approach date); `none` is `Invalid Date`. -/
def approachMs (a : CloseApproach) : Option Int :=
  (parseDateDay a.closeApproachDate).map (fun d => d * msPerDay)

/-- Test `new Date(approach.close_approach_date) > now` used by the
filter in the object route; a `NaN` date compares false. -/
def isFutureApproach (nowMs : Int) (a : CloseApproach) : Bool :=
  match approachMs a with
  | some t => nowMs < t
  | none => false

/-- Sort key for the ascending sort of future approaches (the
comparator `new Date(a.date) - new Date(b.date)`); runs only on
entries that survived the future filter, where the parse succeeds. -/
def approachKey (a : CloseApproach) : Int :=
  (approachMs a).getD 0

/-- The projected `next_approach` record of the object route. -/
structure NextApproach where
  date : String
  distanceKm : Rat
  velocityKmh : Rat

/-- The `analysis` record computed by `GET /neows/object/:id`. -/
structure NeoAnalysis where
  riskLevel : String
  sizeCategory : String
  nextApproach : Option NextApproach
  approachCount : Nat

/-- Future approaches of an object, sorted ascending by date:
`data.close_approach_data.filter(...).sort(...)`.  JavaScript's
`Array.prototype.sort` with this comparator produces a list sorted by
`approachKey`; it is embedded by a stable insertion sort. -/
def futureApproaches (nowMs : Int) (o : NeoObject) : List CloseApproach :=
  (o.closeApproachData.filter (isFutureApproach nowMs)).insertionSort
    (fun a b => approachKey a ≤ approachKey b)

/-- Embedding of the enhanced analysis of `GET /neows/object/:id`:
risk level from the hazardous flag, size category from the maximum
estimated diameter, and `next_approach` as the head of the sorted
future approaches (or `null`). -/
def analyzeNeoObject (nowMs : Int) (o : NeoObject) : NeoAnalysis :=
  let future := futureApproaches nowMs o
  { riskLevel := if o.isPotentiallyHazardousAsteroid then "HIGH" else "LOW"
    sizeCategory := categorizeSize o.estimatedDiameterMaxKm
    nextApproach := future.head?.map (fun a =>
      { date := a.closeApproachDate
        distanceKm := a.missKm
        velocityKmh := a.velocityKmh })
    approachCount := o.closeApproachData.length }

/-! ## NEO feed route and risk summary (src/unnamed/part_011, GET /feed) -/

/-- Raw NEO feed payload: `element_count` and the per-date object map
(`near_earth_objects`), modelled as an association list in the JSON key
order used by `Object.values`. -/
structure FeedPayload where
  elementCount : Int
  nearEarthObjects : List (String × List NeoObject)

/-- The `largest_object` summary record. -/
structure RiskLargest where
  name : String
  diameter : Rat
  isHazardous : Bool

/-- The `closest_approach` summary record. -/
structure RiskClosest where
  objectName : String
  distance : Rat
  date : String
  velocity : Rat

/-- The `risk_summary` record computed fresh on every feed request. -/
structure RiskSummary where
  totalObjects : Int
  potentiallyHazardous : Nat
  closeApproaches : Nat
  largestObject : Option RiskLargest
  closestApproach : Option RiskClosest

/-- Body of the `forEach` over one NEO object in the feed handler:
hazardous counter, then the inner loop over its approaches updating the
closest approach under strict `<`, then the largest-object update under
strict `>` (first seen wins ties in both). -/
def riskStep (rs : RiskSummary) (o : NeoObject) : RiskSummary :=
  let rs :=
    if o.isPotentiallyHazardousAsteroid then
      { rs with potentiallyHazardous := rs.potentiallyHazardous + 1 }
    else rs
  let rs := o.closeApproachData.foldl (fun rs a =>
    let rs := { rs with closeApproaches := rs.closeApproaches + 1 }
    let upd : RiskClosest :=
      { objectName := o.name, distance := a.missKm,
        date := a.closeApproachDate, velocity := a.velocityKmh }
    match rs.closestApproach with
    | none => { rs with closestApproach := some upd }
    | some c =>
      if a.missKm < c.distance then { rs with closestApproach := some upd } else rs) rs
  let updL : RiskLargest :=
    { name := o.name, diameter := o.estimatedDiameterMaxKm,
      isHazardous := o.isPotentiallyHazardousAsteroid }
  match rs.largestObject with
  | none => { rs with largestObject := some updL }
  | some L =>
    if L.diameter < o.estimatedDiameterMaxKm then { rs with largestObject := some updL }
    else rs

/-- Risk summary of a feed payload: the fold of `riskStep` over
`Object.values(data.near_earth_objects).flat()`. -/
def computeRiskSummary (p : FeedPayload) : RiskSummary :=
  ((p.nearEarthObjects.map Prod.snd).flatten).foldl riskStep
    { totalObjects := p.elementCount
      potentiallyHazardous := 0
      closeApproaches := 0
      largestObject := none
      closestApproach := none }

/-- JSON failure body sent directly by a route handler:
`{ success: false, error, message }` with the HTTP status. -/
structure FailResp where
  status : Nat
  error : String
  message : String
deriving DecidableEq

/-- Meta block of a successful feed response. -/
structure FeedMeta where
  endpoint : String
  startDate : String
  endDate : String
  days : Int
  detailed : Bool
  cached : Bool
  timestampMs : Int

/-- Outcome of the feed handler: an early JSON failure or the success
envelope (processed payload with its risk summary, plus meta). -/
inductive FeedResult where
  | fail (r : FailResp) : FeedResult
  | ok (data : FeedPayload × RiskSummary) (meta : FeedMeta) : FeedResult

/-- One run of the feed handler together with the observable fact of
whether the upstream client (`nasaApi.getNearEarthObjects`) was
called. -/
structure FeedRun where
  result : FeedResult
  upstreamCalled : Bool

/-- Embedding of `GET /neows/feed`.  `today` is the server's current
date string, `nowMs` the current clock, and `fetch` the upstream
client; `startQ`, `endQ`, `detailedQ` are the raw query parameters.
An empty-string parameter is falsy and falls back to `today`, exactly
as `start_date || today` does. -/
def neowsFeedRoute (today : String) (nowMs : Int)
    (fetch : String → String → Bool → FeedPayload)
    (startQ endQ detailedQ : Option String) : FeedRun :=
  let startDate := match startQ with | some s => if s = "" then today else s | none => today
  let endDate := match endQ with | some s => if s = "" then today else s | none => today
  if ¬ validateDateStr startDate then
    { result := .fail ⟨400, "Invalid start_date format",
        "Start date must be in YYYY-MM-DD format"⟩, upstreamCalled := false }
  else if ¬ validateDateStr endDate then
    { result := .fail ⟨400, "Invalid end_date format",
        "End date must be in YYYY-MM-DD format"⟩, upstreamCalled := false }
  else
    let ds := (parseDateDay startDate).getD 0
    let de := (parseDateDay endDate).getD 0
    if ds > de then
      { result := .fail ⟨400, "Invalid date range",
          "Start date must be before or equal to end date"⟩, upstreamCalled := false }
    else
      let daysDiff := de - ds
      if daysDiff > 7 then
        { result := .fail ⟨400, "Date range too large",
            "Date range cannot exceed 7 days"⟩, upstreamCalled := false }
      else
        let detailed := detailedQ = some "true"
        let data := fetch startDate endDate detailed
        { result := .ok (data, computeRiskSummary data)
            { endpoint := "neows/feed", startDate := startDate, endDate := endDate,
              days := daysDiff + 1, detailed := detailed, cached := true,
              timestampMs := nowMs }
          upstreamCalled := true }

/-! ## APOD routes (src/backend/src/routes/apod.js) -/

/-- Integer prefix parsing: the fragment of JavaScript `parseInt`
relevant to query strings (optional surrounding whitespace, optional
sign, then a non-empty run of decimal digits; `none` is `NaN`). -/
def parseIntStr (s : String) : Option Int :=
  let cs := s.data.dropWhile (fun c => c = ' ' || c = '\t' || c = '\n' || c = '\r')
  let signAndRest : Int × List Char :=
    match cs with
    | '-' :: rest => (-1, rest)
    | '+' :: rest => (1, rest)
    | rest => (1, rest)
  let digits := signAndRest.2.takeWhile isDigitChar
  if digits.isEmpty then none
  else some (signAndRest.1 * digits.foldl (fun acc c => acc * 10 + digitVal c) 0)

/-- Embedding of `validateCount(count, min, max)` on a string argument:
`parseInt` then a range check (`NaN` fails both comparisons). -/
def validateCountStr (count : String) (lo hi : Int) : Bool :=
  match parseIntStr count with
  | some n => lo ≤ n && n ≤ hi
  | none => false

/-- Meta block of a successful plain-APOD response. -/
structure ApodMeta where
  endpoint : String
  cached : Bool
  timestampMs : Int
deriving DecidableEq

/-- Outcome of the plain APOD handler on upstream payload type `α`. -/
inductive ApodResult (α : Type) where
  | fail (r : FailResp) : ApodResult α
  | ok (data : α) (meta : ApodMeta) : ApodResult α

/-- One run of the plain APOD handler. -/
structure ApodRun (α : Type) where
  result : ApodResult α
  upstreamCalled : Bool

/-- Embedding of `GET /apod` (the plain route): per-parameter
validation guarded by truthiness of each optional parameter, the
start/end comparison, then the upstream call and the success envelope
with its literally hard-coded `cached: true`. -/
def apodRoute (α : Type) (nowMs : Int)
    (fetch : Option String → Option String → Option String → Option String → α)
    (dateQ countQ startQ endQ : Option String) : ApodRun α :=
  let truthy : Option String → Bool := fun q => match q with | some s => s ≠ "" | none => false
  if truthy dateQ && ¬ validateDateStr ((dateQ.getD "")) then
    { result := .fail ⟨400, "Invalid date format",
        "Date must be in YYYY-MM-DD format"⟩, upstreamCalled := false }
  else if truthy countQ && ¬ validateCountStr (countQ.getD "") 1 100 then
    { result := .fail ⟨400, "Invalid count",
        "Count must be between 1 and 100"⟩, upstreamCalled := false }
  else if truthy startQ && ¬ validateDateStr (startQ.getD "") then
    { result := .fail ⟨400, "Invalid start_date format",
        "Start date must be in YYYY-MM-DD format"⟩, upstreamCalled := false }
  else if truthy endQ && ¬ validateDateStr (endQ.getD "") then
    { result := .fail ⟨400, "Invalid end_date format",
        "End date must be in YYYY-MM-DD format"⟩, upstreamCalled := false }
  else if truthy startQ && truthy endQ &&
      (parseDateDay (endQ.getD "")).getD 0 < (parseDateDay (startQ.getD "")).getD 0 then
    { result := .fail ⟨400, "Invalid date range",
        "Start date must be before end date"⟩, upstreamCalled := false }
  else
    { result := .ok (fetch dateQ countQ startQ endQ)
        { endpoint := "apod", cached := true, timestampMs := nowMs }
      upstreamCalled := true }

/-- Meta block of a successful APOD range response. -/
structure ApodRangeMeta where
  endpoint : String
  startDate : String
  endDate : String
  days : Int
  cached : Bool
  timestampMs : Int
deriving DecidableEq

/-- Outcome of the APOD range handler on upstream payload type `α`. -/
inductive ApodRangeResult (α : Type) where
  | fail (r : FailResp) : ApodRangeResult α
  | ok (data : α) (meta : ApodRangeMeta) : ApodRangeResult α

/-- One run of the APOD range handler. -/
structure ApodRangeRun (α : Type) where
  result : ApodRangeResult α
  upstreamCalled : Bool

/-- Embedding of `GET /apod/range`: required parameters, date format
checks, order check, then the 100-day limit `daysDiff > 100` before the
upstream call. -/
def apodRangeRoute (α : Type) (nowMs : Int) (fetch : String → String → α)
    (startQ endQ : Option String) : ApodRangeRun α :=
  let truthy : Option String → Bool := fun q => match q with | some s => s ≠ "" | none => false
  if ¬ (truthy startQ && truthy endQ) then
    { result := .fail ⟨400, "Missing parameters",
        "Both start_date and end_date are required"⟩, upstreamCalled := false }
  else
    let s := startQ.getD ""
    let e := endQ.getD ""
    if ¬ (validateDateStr s && validateDateStr e) then
      { result := .fail ⟨400, "Invalid date format",
          "Dates must be in YYYY-MM-DD format"⟩, upstreamCalled := false }
    else
      let ds := (parseDateDay s).getD 0
      let de := (parseDateDay e).getD 0
      if ds > de then
        { result := .fail ⟨400, "Invalid date range",
            "Start date must be before end date"⟩, upstreamCalled := false }
      else
        let daysDiff := de - ds
        if daysDiff > 100 then
          { result := .fail ⟨400, "Date range too large",
              "Date range cannot exceed 100 days"⟩, upstreamCalled := false }
        else
          { result := .ok (fetch s e)
              { endpoint := "apod/range", startDate := s, endDate := e,
                days := daysDiff + 1, cached := true, timestampMs := nowMs }
            upstreamCalled := true }

/-! ## EPIC images route (src/backend/src/routes/epic.js) -/

/-- One EPIC image of the upstream payload; positional and attitude
fields not inspected by the handler are carried opaquely in `raw`. -/
structure EpicImage (β : Type) where
  image : String
  date : String
  raw : β

/-- The part of an EPIC timestamp before the first space
(`image.date.split(' ')[0]`). -/
def dateDatePart (s : String) : String :=
  String.mk (s.data.takeWhile (fun c => c ≠ ' '))

/-- Replacement of every dash by a slash (the global regex replace of
the source). -/
def slashify (s : String) : String :=
  String.mk (s.data.map (fun c => if c = '-' then '/' else c))

/-- Enhanced EPIC image as produced by the images route: the original
fields plus synthesized archive URLs (per the fixed template) and the
nested metadata block, here the opaque `raw`. -/
structure EnhancedEpicImage (β : Type) where
  image : String
  date : String
  raw : β
  imageUrl : String
  thumbnailUrl : String
deriving DecidableEq

/-- URL synthesis of the images route for one image. -/
def enhanceEpicImage (β : Type) (imgType apiKey : String) (i : EpicImage β) :
    EnhancedEpicImage β :=
  let datePath := slashify (dateDatePart i.date)
  { image := i.image, date := i.date, raw := i.raw
    imageUrl := "https://api.nasa.gov/EPIC/archive/" ++ imgType ++ "/" ++ datePath ++
      "/png/" ++ i.image ++ ".png?api_key=" ++ apiKey
    thumbnailUrl := "https://api.nasa.gov/EPIC/archive/" ++ imgType ++ "/" ++ datePath ++
      "/thumbs/" ++ i.image ++ ".jpg?api_key=" ++ apiKey }

/-- Meta block of a successful EPIC images response. -/
structure EpicMeta where
  endpoint : String
  date : String
  imgType : String
  count : Nat
  cached : Bool
  timestampMs : Int
deriving DecidableEq

/-- Outcome of the EPIC images handler. -/
inductive EpicResult (β : Type) where
  | fail (r : FailResp) : EpicResult β
  | ok (data : List (EnhancedEpicImage β)) (meta : EpicMeta) : EpicResult β
deriving DecidableEq

/-- One run of the EPIC images handler. -/
structure EpicRun (β : Type) where
  result : EpicResult β
  upstreamCalled : Bool

/-- The `VALID_TYPES` constant of the EPIC routes. -/
def epicValidTypes : List String := ["natural", "enhanced"]

/-- Embedding of `GET /epic/images`: type check first, then the
today-fallback for a falsy date, date-format check, the future-date
check `new Date(targetDate) > new Date()` (UTC midnight of the target
date against the current instant `nowMs`), then the upstream call and
URL enhancement. -/
def epicImagesRoute (β : Type) (nowMs : Int) (today apiKey : String)
    (fetch : String → String → List (EpicImage β))
    (dateQ typeQ : Option String) : EpicRun β :=
  let tRaw := typeQ.getD "natural"
  let t := toLowerStr tRaw
  if ¬ epicValidTypes.contains t then
    { result := .fail ⟨400, "Invalid type",
        "Type must be one of: natural, enhanced"⟩, upstreamCalled := false }
  else
    let targetDate := match dateQ with | some s => if s = "" then today else s | none => today
    if ¬ validateDateStr targetDate then
      { result := .fail ⟨400, "Invalid date format",
          "Date must be in YYYY-MM-DD format"⟩, upstreamCalled := false }
    else if nowMs < ((parseDateDay targetDate).getD 0) * msPerDay then
      { result := .fail ⟨400, "Invalid date",
          "Date cannot be in the future"⟩, upstreamCalled := false }
    else
      let data := fetch targetDate t
      let enhanced := data.map (enhanceEpicImage β t apiKey)
      { result := .ok enhanced
          { endpoint := "epic/images", date := targetDate, imgType := t,
            count := enhanced.length, cached := true, timestampMs := nowMs }
        upstreamCalled := true }

/-! ## Image proxy route (src/unnamed/part_012) -/

/-- The fixed `allowedDomains` list of the proxy route. -/
def allowedDomains : List String :=
  ["apod.nasa.gov", "mars.nasa.gov", "api.nasa.gov",
   "epic.gsfc.nasa.gov", "photojournal.jpl.nasa.gov"]

/-- Embedding of the allow-list test of the source:
`urlObj.hostname.includes(domain) || urlObj.hostname.endsWith(domain)`,
i.e. substring containment or suffix match. -/
def isAllowedDomain (hostname : String) : Bool :=
  allowedDomains.any (fun d =>
    decide (d.data <:+: hostname.data) || decide (d.data <:+ hostname.data))

/-- Allow-list test as worded by the specification: exact match or
suffix match against the fixed domain list.  Kept separate from the
source embedding `isAllowedDomain` so the two can be compared. -/
def specAllowsDomain (hostname : String) : Bool :=
  allowedDomains.any (fun d => d = hostname || decide (d.data <:+ hostname.data))

/-- A parsed URL as produced by `new URL(url)`: the full text and its
hostname component. -/
structure ProxyUrl where
  full : String
  hostname : String

/-- A cached proxy image: bytes plus stored content type. -/
structure CachedImage where
  bytes : List Nat
  contentType : String
deriving DecidableEq

/-- Result of the upstream binary fetch performed by the proxy. -/
inductive FetchOutcome where
  | success (bytes : List Nat) (contentType : Option String) : FetchOutcome
  | notFound : FetchOutcome
  | timeout : FetchOutcome
  | otherError : FetchOutcome

/-- Response of the proxy route: a JSON failure, a served image with
its `X-Cache` marker, or delegation to the global error handler
(`next(error)`). -/
inductive ProxyResult where
  | failJson (status : Nat) (error message : String) : ProxyResult
  | image (contentType : String) (bytes : List Nat) (xcache : String) : ProxyResult
  | delegated : ProxyResult
deriving DecidableEq

/-- One run of the proxy route: the response, whether the upstream
fetch was attempted, and the image cache afterwards.  The cache is
keyed by the cache-key text; the source key is
`image_` + base64(url), embedded here with the URL text itself in
place of its base64 rendering (an injective re-encoding that no claim
inspects). -/
structure ProxyRun where
  result : ProxyResult
  upstreamCalled : Bool
  cacheAfter : String → Option CachedImage

/-- Embedding of `GET /proxy/image`: missing-URL check, allow-list
check before any network activity, cache lookup, then the upstream
fetch with its error mapping (timeout to 408, upstream 404 to 404,
anything else delegated). -/
def proxyImageRoute (cache : String → Option CachedImage)
    (fetch : String → FetchOutcome) (urlQ : Option ProxyUrl) : ProxyRun :=
  match urlQ with
  | none =>
    { result := .failJson 400 "Missing URL parameter" "Image URL is required"
      upstreamCalled := false, cacheAfter := cache }
  | some url =>
    if url.full = "" then
      { result := .failJson 400 "Missing URL parameter" "Image URL is required"
        upstreamCalled := false, cacheAfter := cache }
    else if ¬ isAllowedDomain url.hostname then
      { result := .failJson 403 "Forbidden domain" "Only NASA domains are allowed"
        upstreamCalled := false, cacheAfter := cache }
    else
      let cacheKey := "image_" ++ url.full
      match cache cacheKey with
      | some img =>
        { result := .image img.contentType img.bytes "HIT"
          upstreamCalled := false, cacheAfter := cache }
      | none =>
        match fetch url.full with
        | .success bytes ct =>
          let contentType := ct.getD "image/jpeg"
          let stored : CachedImage := { bytes := bytes, contentType := contentType }
          { result := .image contentType bytes "MISS"
            upstreamCalled := true
            cacheAfter := fun k => if k = cacheKey then some stored else cache k }
        | .timeout =>
          { result := .failJson 408 "Request timeout" "Image request timed out"
            upstreamCalled := true, cacheAfter := cache }
        | .notFound =>
          { result := .failJson 404 "Image not found"
              "The requested image could not be found"
            upstreamCalled := true, cacheAfter := cache }
        | .otherError =>
          { result := .delegated, upstreamCalled := true, cacheAfter := cache }

/-! ## Cache component

Modelled from the spec: the TTL key-value cache with hit/miss counters
(spec section 4.2).  Its implementation is the `node-cache` dependency
plus the service layer, neither of which is under `src/`; only callers
appear there, so the operations below follow the specification text:
`get` counts a hit exactly on a present, unexpired entry, `set` stores
with expiry now + ttl, and `flushAll` clears every entry while leaving
the cumulative hit/miss counters untouched. -/

/-- State of the cache: live entries (key, value, expiry time) plus the
cumulative hit and miss counters. -/
structure Cache (V : Type) where
  entries : List (String × V × Int)
  hits : Nat
  misses : Nat

/-- Modelled from the spec: `get(key)` returns the value of a present,
unexpired entry and counts a hit; otherwise it counts a miss. -/
def Cache.get (c : Cache V) (now : Int) (k : String) : Option V × Cache V :=
  match c.entries.find? (fun e => e.1 = k && now < e.2.2) with
  | some e => (some e.2.1, { c with hits := c.hits + 1 })
  | none => (none, { c with misses := c.misses + 1 })

/-- Modelled from the spec: `set(key, value, ttl)` stores with expiry
`now + ttl`, overwriting any existing entry unconditionally. -/
def Cache.set (c : Cache V) (now ttl : Int) (k : String) (v : V) : Cache V :=
  { c with entries := (k, v, now + ttl) :: c.entries.filter (fun e => e.1 ≠ k) }

/-- Modelled from the spec: `flushAll()` clears all entries and does
not reset the hit/miss counters. -/
def Cache.flushAll (c : Cache V) : Cache V :=
  { c with entries := [] }

/-- Modelled from the spec: `keys()` lists the keys of live entries. -/
def Cache.keyList (c : Cache V) : List String :=
  c.entries.map (fun e => e.1)

/-- The `CacheStats` record of the spec data model. -/
structure CacheStats where
  hits : Nat
  misses : Nat
  keyCount : Nat
deriving DecidableEq

/-- Modelled from the spec: `stats()`. -/
def Cache.stats (c : Cache V) : CacheStats :=
  { hits := c.hits, misses := c.misses, keyCount := c.entries.length }

/-! ## Concrete sample data used by witnesses and counterexamples -/

/-- The fixed set of documented error codes (docs/API.md and spec
section 6). -/
def errorCodes : List String :=
  ["INVALID_REQUEST", "NASA_API_ERROR", "RATE_LIMIT_EXCEEDED",
   "INTERNAL_ERROR", "NOT_FOUND", "CACHE_ERROR"]

/-- An empty NEO feed payload (no objects on any date). -/
def demoFeedEmpty : FeedPayload :=
  { elementCount := 0, nearEarthObjects := [] }

/-- A sample hazardous NEO with one past and two future close
approaches relative to epoch day 19723 (2024-01-01). -/
def demoNeo : NeoObject :=
  { objId := "3542519"
    name := "(2010 PK9)"
    isPotentiallyHazardousAsteroid := true
    estimatedDiameterMaxKm := 0.5
    closeApproachData :=
      [ { closeApproachDate := "1999-01-01", missKm := 1000000, velocityKmh := 40000 }
      , { closeApproachDate := "2024-06-01", missKm := 750000, velocityKmh := 50000 }
      , { closeApproachDate := "2024-03-01", missKm := 900000, velocityKmh := 45000 } ] }

/-- Clock instant used with `demoNeo`: midnight UTC of 2024-01-01. -/
def demoNowMs : Int := 19723 * msPerDay

/-! ## Helper lemmas -/

/-- Folding list-append over an accumulator is concatenation of the
per-element contributions. -/
theorem foldl_append_eq_flatMap {α β : Type} (f : α → List β) (l : List α) (acc : List β) :
    l.foldl (fun acc x => acc ++ f x) acc = acc ++ l.flatMap f := by
  induction l generalizing acc with
  | nil => simp
  | cons x t ih => simp [ih, List.flatMap_cons, List.append_assoc]

/-- The empty string is not a valid date string. -/
theorem parseDateDay_empty : parseDateDay "" = none := rfl

/-- A string with a parse is non-empty. -/
theorem ne_empty_of_parseDateDay {s : String} {d : Int}
    (h : parseDateDay s = some d) : s ≠ "" := by
  intro hs
  rw [hs, parseDateDay_empty] at h
  exact Option.noConfusion h

/-- The head of an insertion sort by an integer key is a member of the
original list and minimal for the key. -/
theorem head_insertionSort_min {α : Type} (key : α → Int) (l : List α) (x : α)
    (h : (l.insertionSort (fun a b => key a ≤ key b)).head? = some x) :
    x ∈ l ∧ ∀ b ∈ l, key x ≤ key b := by
  haveI : IsTotal α (fun a b => key a ≤ key b) := ⟨fun a b => le_total (key a) (key b)⟩
  haveI : IsTrans α (fun a b => key a ≤ key b) := ⟨fun _ _ _ hab hbc => le_trans hab hbc⟩
  have hs := List.sorted_insertionSort (fun a b => key a ≤ key b) l
  have hp := List.perm_insertionSort (fun a b => key a ≤ key b) l
  cases hsort : l.insertionSort (fun a b => key a ≤ key b) with
  | nil => rw [hsort] at h; exact Option.noConfusion h
  | cons y t =>
    rw [hsort] at h hs hp
    have hxy : x = y := by
      simpa using h.symm
    subst hxy
    constructor
    · exact hp.mem_iff.mp (List.mem_cons_self x t)
    · intro b hb
      have hb' : b ∈ x :: t := hp.mem_iff.mpr hb
      rcases List.mem_cons.mp hb' with rfl | hbt
      · exact le_refl _
      · exact List.rel_of_sorted_cons hs b hbt

/-! ## Claim C5 (validateDateRange) -/

/-- C5 counterexample: the claim states that
`validateDateRange(start, end, maxDays)` fails whenever the inclusive
day count `(end - start) + 1` exceeds `maxDays`; for
start 2024-01-01, end 2024-01-08 and maxDays 7 the inclusive count is
8 > 7, yet the source accepts the range and returns eight days,
because it compares the exclusive difference against `maxDays`. -/
theorem c5_inclusive_count_counterexample :
    validateDateRange "2024-01-01" "2024-01-08" 7 = DateRangeResult.valid 8 := by
  decide

/-- C5 amended: `validateDateRange(start, end, maxDays)` fails with a
message if either date is invalid or `start > end` or the exclusive
difference `end - start` in days exceeds `maxDays` (equivalently, the
inclusive day count exceeds `maxDays + 1`); otherwise it returns the
inclusive day count, and in particular
`validateDateRange("2024-01-01", "2024-01-07", 7)` is valid with 7
days. -/
theorem c5_validateDateRange_characterization (s e : String) (maxDays : Int) :
    (parseDateDay s = none →
       validateDateRange s e maxDays = .invalid "Invalid start date format") ∧
    (∀ ds, parseDateDay s = some ds → parseDateDay e = none →
       validateDateRange s e maxDays = .invalid "Invalid end date format") ∧
    (∀ ds de, parseDateDay s = some ds → parseDateDay e = some de →
       (de < ds →
          validateDateRange s e maxDays =
            .invalid "Start date must be before or equal to end date") ∧
       (ds ≤ de → maxDays < de - ds →
          validateDateRange s e maxDays =
            .invalid ("Date range cannot exceed " ++ toString maxDays ++ " days")) ∧
       (ds ≤ de → de - ds ≤ maxDays →
          validateDateRange s e maxDays = .valid (de - ds + 1))) ∧
    validateDateRange "2024-01-01" "2024-01-07" 7 = DateRangeResult.valid 7 := by
  refine ⟨?_, ?_, ?_, by decide⟩
  · intro h
    simp [validateDateRange, validateDateStr, h]
  · intro ds hs he
    simp [validateDateRange, validateDateStr, hs, he]
  · intro ds de hs he
    refine ⟨?_, ?_, ?_⟩
    · intro hlt
      simp only [validateDateRange, validateDateStr, hs, he, Option.isSome_some,
        Option.getD_some]
      rw [if_neg (by simp), if_neg (by simp), if_pos (by omega)]
    · intro hle hmax
      simp only [validateDateRange, validateDateStr, hs, he, Option.isSome_some,
        Option.getD_some]
      rw [if_neg (by simp), if_neg (by simp), if_neg (by omega), if_pos (by omega)]
    · intro hle hmax
      simp only [validateDateRange, validateDateStr, hs, he, Option.isSome_some,
        Option.getD_some]
      rw [if_neg (by simp), if_neg (by simp), if_neg (by omega), if_neg (by omega)]

/-- C5 witness: the characterization applied at the concrete inputs of
the specification's own example. -/
theorem c5_witness :
    validateDateRange "2024-01-01" "2024-01-07" 7 = DateRangeResult.valid 7 :=
  (c5_validateDateRange_characterization "2024-01-01" "2024-01-07" 7).2.2.2

/-! ## Claim C6 (validator totality) -/

/-- C6 counterexample: the claim states that every validator, and
validateCamera in particular, never raises an exception on any input;
but `validateCamera('FHAZ', null, catalog)` evaluates
`rover.toLowerCase()` on `null` and throws a `TypeError` (modelled as
`none`). -/
theorem c6_validateCamera_throws :
    validateCamera (JSValue.vStr "FHAZ") JSValue.vNull [] = none := by
  decide

/-- C6 amended: `validateDate` returns a Boolean (never throws) on
every input, and `validateCamera` returns a Boolean whenever its rover
argument is a string or its camera argument is not a non-empty string;
it throws a `TypeError` exactly when the camera argument is a
non-empty string and the rover argument is not a string. -/
theorem c6_validator_totality :
    (∀ v : JSValue, (validateDate v).isSome = true) ∧
    (∀ (cam rov : JSValue) (cat : List (String × List String)),
       ((∃ r, rov = JSValue.vStr r) ∨ (∀ c, cam ≠ JSValue.vStr c) ∨
         cam = JSValue.vStr "") →
       (validateCamera cam rov cat).isSome = true) ∧
    (∀ (rov : JSValue) (cat : List (String × List String)) (c : String),
       c ≠ "" → (∀ r, rov ≠ JSValue.vStr r) →
       validateCamera (JSValue.vStr c) rov cat = none) := by
  refine ⟨?_, ?_, ?_⟩
  · intro v
    cases v <;> simp [validateDate] <;> split <;> simp
  · intro cam rov cat h
    rcases h with ⟨r, rfl⟩ | h | rfl
    · cases cam <;> simp [validateCamera] <;> split <;> try simp
      split <;> simp
    · cases cam <;> simp [validateCamera]
      exact absurd rfl (h _)
    · simp [validateCamera]
  · intro rov cat c hc hrov
    cases rov <;> simp [validateCamera, hc]
    · exact absurd rfl (hrov _)

/-- C6 witness: the amended totality applied at concrete inputs. -/
theorem c6_witness :
    (validateDate (JSValue.vStr "2024-01-01")).isSome = true ∧
    (validateCamera (JSValue.vStr "FHAZ") (JSValue.vStr "Curiosity") []).isSome = true :=
  ⟨c6_validator_totality.1 _,
   c6_validator_totality.2.1 _ _ _ (Or.inl ⟨"Curiosity", rfl⟩)⟩

/-! ## Claim C10 (validateQueryParams empty values) -/

/-- C10: `validateQueryParams` treats the empty string exactly like an
absent value.  The aggregated error list is the concatenation of the
per-rule contributions; a required rule whose value is undefined, null
or the empty string contributes the error `key is required`; a
non-required rule whose value is undefined, null or the empty string
contributes no error at all, whatever its validator; and the emptiness
test holds exactly for undefined, null and the empty string. -/
theorem c10_empty_param_handling (params : String → JSValue)
    (rules : List (String × QueryRule)) :
    ((validateQueryParams params rules).2 = rules.flatMap (ruleErrors params)) ∧
    (∀ k r, (k, r) ∈ rules → r.required = true → isEmptyParam (params k) = true →
       (k ++ " is required") ∈ (validateQueryParams params rules).2) ∧
    (∀ k r, r.required = false → isEmptyParam (params k) = true →
       ruleErrors params (k, r) = []) ∧
    (isEmptyParam JSValue.vUndef = true ∧ isEmptyParam JSValue.vNull = true ∧
      isEmptyParam (JSValue.vStr "") = true ∧ isEmptyParam (JSValue.vNum 0) = false) := by
  have hflat : (validateQueryParams params rules).2 = rules.flatMap (ruleErrors params) := by
    simpa [validateQueryParams] using foldl_append_eq_flatMap (ruleErrors params) rules []
  refine ⟨hflat, ?_, ?_, by decide, by decide, by decide, by decide⟩
  · intro k r hmem hreq hempty
    rw [hflat]
    refine List.mem_flatMap.mpr ⟨(k, r), hmem, ?_⟩
    simp [ruleErrors, hreq, hempty]
  · intro k r hreq hempty
    simp [ruleErrors, hreq, hempty]

/-- C10 witness: a required rule with an absent value contributes
exactly the required-error at a concrete rule set. -/
theorem c10_witness :
    ("start_date" ++ " is required") ∈
      (validateQueryParams (fun _ => JSValue.vUndef)
        [("start_date", { required := true, validator := none, message := none })]).2 :=
  (c10_empty_param_handling (fun _ => JSValue.vUndef)
      [("start_date", { required := true, validator := none, message := none })]).2.1
    "start_date" { required := true, validator := none, message := none }
    (List.mem_singleton.mpr rfl) rfl rfl

/-! ## Claim C7 (NEO single-object analysis) -/

/-- C7: for the object-route analysis, `risk_level` is HIGH exactly
when the object is flagged potentially hazardous and LOW otherwise;
`size_category` is `categorizeSize` of the maximum estimated diameter,
which realises the fixed thresholds (below 0.001 TINY, below 0.01
SMALL, below 0.1 MEDIUM, below 1 LARGE, otherwise MASSIVE);
`approach_count` is the number of close-approach entries; and
`next_approach` is null exactly when no close-approach entry is
strictly in the future, and otherwise projects a future entry whose
date is the earliest among all future entries. -/
theorem c7_object_analysis (nowMs : Int) (o : NeoObject) :
    ((analyzeNeoObject nowMs o).riskLevel =
       if o.isPotentiallyHazardousAsteroid then "HIGH" else "LOW") ∧
    ((analyzeNeoObject nowMs o).sizeCategory =
       categorizeSize o.estimatedDiameterMaxKm) ∧
    ((analyzeNeoObject nowMs o).approachCount = o.closeApproachData.length) ∧
    (∀ d : Rat,
       (d < 0.001 → categorizeSize d = "TINY") ∧
       (0.001 ≤ d → d < 0.01 → categorizeSize d = "SMALL") ∧
       (0.01 ≤ d → d < 0.1 → categorizeSize d = "MEDIUM") ∧
       (0.1 ≤ d → d < 1 → categorizeSize d = "LARGE") ∧
       (1 ≤ d → categorizeSize d = "MASSIVE")) ∧
    ((analyzeNeoObject nowMs o).nextApproach = none ↔
       ∀ a ∈ o.closeApproachData, isFutureApproach nowMs a = false) ∧
    (∀ x, (analyzeNeoObject nowMs o).nextApproach = some x →
       ∃ a, a ∈ o.closeApproachData ∧ isFutureApproach nowMs a = true ∧
         x.date = a.closeApproachDate ∧ x.distanceKm = a.missKm ∧
         x.velocityKmh = a.velocityKmh ∧
         ∀ b ∈ o.closeApproachData, isFutureApproach nowMs b = true →
           approachKey a ≤ approachKey b) := by
  have hna : (analyzeNeoObject nowMs o).nextApproach =
      ((o.closeApproachData.filter (isFutureApproach nowMs)).insertionSort
        (fun a b => approachKey a ≤ approachKey b)).head?.map
        (fun a => { date := a.closeApproachDate, distanceKm := a.missKm,
                    velocityKmh := a.velocityKmh }) := rfl
  have hperm := List.perm_insertionSort (fun a b => approachKey a ≤ approachKey b)
    (o.closeApproachData.filter (isFutureApproach nowMs))
  refine ⟨rfl, rfl, rfl, ?_, ?_, ?_⟩
  · intro d
    refine ⟨?_, ?_, ?_, ?_, ?_⟩ <;> intros <;> unfold categorizeSize <;>
      split_ifs <;> first | rfl | linarith
  · rw [hna, Option.map_eq_none', List.head?_eq_none_iff]
    constructor
    · intro hnil a ha
      rw [hnil] at hperm
      have hfil := hperm.symm.eq_nil
      by_contra hfa
      have : a ∈ o.closeApproachData.filter (isFutureApproach nowMs) :=
        List.mem_filter.mpr ⟨ha, by simpa using hfa⟩
      rw [hfil] at this
      exact List.not_mem_nil a this
    · intro hall
      have hfil : o.closeApproachData.filter (isFutureApproach nowMs) = [] := by
        rw [List.filter_eq_nil_iff]
        intro a ha
        simp [hall a ha]
      rw [hfil]
      rfl
  · intro x hx
    rw [hna] at hx
    rcases Option.map_eq_some'.mp hx with ⟨a, hhead, hproj⟩
    rcases head_insertionSort_min approachKey
      (o.closeApproachData.filter (isFutureApproach nowMs)) a hhead with ⟨hmem, hmin⟩
    rcases List.mem_filter.mp hmem with ⟨hdata, hfut⟩
    refine ⟨a, hdata, hfut, ?_, ?_, ?_, ?_⟩
    · rw [← hproj]
    · rw [← hproj]
    · rw [← hproj]
    · intro b hb hfb
      exact hmin b (List.mem_filter.mpr ⟨hb, hfb⟩)

/-- C7 witness: the analysis of the sample hazardous object at the
sample instant: risk level HIGH, size LARGE for diameter 0.5 km, and
its next approach is a future entry with the earliest date. -/
theorem c7_witness :
    ((analyzeNeoObject demoNowMs demoNeo).riskLevel =
       if demoNeo.isPotentiallyHazardousAsteroid then "HIGH" else "LOW") ∧
    (0.1 ≤ demoNeo.estimatedDiameterMaxKm → demoNeo.estimatedDiameterMaxKm < 1 →
       categorizeSize demoNeo.estimatedDiameterMaxKm = "LARGE") ∧
    (∀ x, (analyzeNeoObject demoNowMs demoNeo).nextApproach = some x →
       ∃ a, a ∈ demoNeo.closeApproachData ∧
         isFutureApproach demoNowMs a = true ∧
         x.date = a.closeApproachDate ∧ x.distanceKm = a.missKm ∧
         x.velocityKmh = a.velocityKmh ∧
         ∀ b ∈ demoNeo.closeApproachData, isFutureApproach demoNowMs b = true →
           approachKey a ≤ approachKey b) :=
  ⟨(c7_object_analysis demoNowMs demoNeo).1,
   ((c7_object_analysis demoNowMs demoNeo).2.2.2.1
      demoNeo.estimatedDiameterMaxKm).2.2.2.1,
   (c7_object_analysis demoNowMs demoNeo).2.2.2.2.2⟩

theorem neowsFeedRoute_eval (today s e : String) (nowMs : Int)
    (fetch : String → String → Bool → FeedPayload) (dq : Option String)
    (ds de : Int) (hs : parseDateDay s = some ds) (he : parseDateDay e = some de)
    (hle : ds ≤ de) :
    neowsFeedRoute today nowMs fetch (some s) (some e) dq =
      (if 7 < de - ds then
        { result := FeedResult.fail ⟨400, "Date range too large",
            "Date range cannot exceed 7 days"⟩, upstreamCalled := false }
       else
        { result := FeedResult.ok
            (fetch s e (dq = some "true"), computeRiskSummary (fetch s e (dq = some "true")))
            { endpoint := "neows/feed", startDate := s, endDate := e,
              days := de - ds + 1, detailed := (dq = some "true"), cached := true,
              timestampMs := nowMs }
          upstreamCalled := true }) := by
  have hsne : s ≠ "" := ne_empty_of_parseDateDay hs
  have hene : e ≠ "" := ne_empty_of_parseDateDay he
  unfold neowsFeedRoute
  simp only [if_neg hsne, if_neg hene, validateDateStr, hs, he, Option.isSome_some,
    Option.getD_some, not_true, if_false, gt_iff_lt]
  rw [if_neg (show ¬ de < ds by omega)]

theorem apodRangeRoute_eval (α : Type) (s e : String) (nowMs : Int)
    (fetchA : String → String → α) (ds de : Int)
    (hs : parseDateDay s = some ds) (he : parseDateDay e = some de)
    (hle : ds ≤ de) :
    apodRangeRoute α nowMs fetchA (some s) (some e) =
      (if 100 < de - ds then
        { result := ApodRangeResult.fail ⟨400, "Date range too large",
            "Date range cannot exceed 100 days"⟩, upstreamCalled := false }
       else
        { result := ApodRangeResult.ok (fetchA s e)
            { endpoint := "apod/range", startDate := s, endDate := e,
              days := de - ds + 1, cached := true, timestampMs := nowMs }
          upstreamCalled := true }) := by
  have hsne : s ≠ "" := ne_empty_of_parseDateDay hs
  have hene : e ≠ "" := ne_empty_of_parseDateDay he
  unfold apodRangeRoute
  simp only [hsne, hene, validateDateStr, hs, he, Option.isSome_some, Option.getD_some,
    Option.getD_some, decide_not, Bool.and_self, not_true, if_false, gt_iff_lt,
    Bool.not_false, Bool.and_true, Bool.true_and, decide_True, decide_False,
    Bool.not_true, ne_eq, not_false_eq_true, Bool.not_eq_true]
  rw [if_neg (show ¬ de < ds by omega)]

/-! ## Claim C1 (date-range window enforcement) -/

/-- C1 counterexample: the claim states that a NEO feed request whose
inclusive day span exceeds 7 days (such as the 8-day span 2024-01-01
to 2024-01-08) is rejected without an upstream call, and an APOD
range request whose inclusive span exceeds 100 days likewise; but both
handlers compare the exclusive day difference against the limit, so
the 8-day inclusive NEO span and the 101-day inclusive APOD span
(2024-01-01 to 2024-04-10) both reach the upstream client. -/
theorem c1_window_counterexample :
    (neowsFeedRoute "2024-01-01" 0 (fun _ _ _ => demoFeedEmpty)
       (some "2024-01-01") (some "2024-01-08") none).upstreamCalled = true ∧
    (apodRangeRoute Nat 0 (fun _ _ => 0)
       (some "2024-01-01") (some "2024-04-10")).upstreamCalled = true := by
  exact ⟨by decide, by decide⟩

/-- C1 amended: the NEO feed handler rejects with a 400 failure and no
upstream call exactly when the day difference end minus start exceeds
7 (inclusive span exceeding 8 days), and the APOD range handler when
the difference exceeds 100 (inclusive span exceeding 101 days);
requests at or below the limit proceed to the upstream client. -/
theorem c1_range_window (α : Type) (today s e : String) (nowMs : Int)
    (fetch : String → String → Bool → FeedPayload) (fetchA : String → String → α)
    (dq : Option String) (ds de : Int)
    (hs : parseDateDay s = some ds) (he : parseDateDay e = some de)
    (hle : ds ≤ de) :
    (7 < de - ds →
       (neowsFeedRoute today nowMs fetch (some s) (some e) dq).result =
         FeedResult.fail ⟨400, "Date range too large",
           "Date range cannot exceed 7 days"⟩ ∧
       (neowsFeedRoute today nowMs fetch (some s) (some e) dq).upstreamCalled = false) ∧
    (de - ds ≤ 7 →
       (neowsFeedRoute today nowMs fetch (some s) (some e) dq).upstreamCalled = true) ∧
    (100 < de - ds →
       (apodRangeRoute α nowMs fetchA (some s) (some e)).result =
         ApodRangeResult.fail ⟨400, "Date range too large",
           "Date range cannot exceed 100 days"⟩ ∧
       (apodRangeRoute α nowMs fetchA (some s) (some e)).upstreamCalled = false) ∧
    (de - ds ≤ 100 →
       (apodRangeRoute α nowMs fetchA (some s) (some e)).upstreamCalled = true) := by
  rw [neowsFeedRoute_eval today s e nowMs fetch dq ds de hs he hle,
    apodRangeRoute_eval α s e nowMs fetchA ds de hs he hle]
  refine ⟨?_, ?_, ?_, ?_⟩
  · intro h
    rw [if_pos h]
    exact ⟨rfl, rfl⟩
  · intro h
    rw [if_neg (by omega)]
  · intro h
    rw [if_pos h]
    exact ⟨rfl, rfl⟩
  · intro h
    rw [if_neg (by omega)]

/-- C1 witness: the amended statement applied at the concrete 9-day
inclusive NEO span 2024-01-01 to 2024-01-09 (rejected) and a 2-day
span (forwarded upstream). -/
theorem c1_witness :
    ((neowsFeedRoute "2024-01-01" 0 (fun _ _ _ => demoFeedEmpty)
        (some "2024-01-01") (some "2024-01-09") none).result =
      FeedResult.fail ⟨400, "Date range too large",
        "Date range cannot exceed 7 days"⟩ ∧
     (neowsFeedRoute "2024-01-01" 0 (fun _ _ _ => demoFeedEmpty)
        (some "2024-01-01") (some "2024-01-09") none).upstreamCalled = false) ∧
    (neowsFeedRoute "2024-01-01" 0 (fun _ _ _ => demoFeedEmpty)
        (some "2024-01-01") (some "2024-01-02") none).upstreamCalled = true :=
  ⟨(c1_range_window Nat "2024-01-01" "2024-01-01" "2024-01-09" 0
      (fun _ _ _ => demoFeedEmpty) (fun _ _ => 0) none 19723 19731
      (by decide) (by decide) (by decide)).1 (by norm_num),
   (c1_range_window Nat "2024-01-01" "2024-01-01" "2024-01-02" 0
      (fun _ _ _ => demoFeedEmpty) (fun _ _ => 0) none 19723 19724
      (by decide) (by decide) (by decide)).2.1 (by norm_num)⟩

/-! ## Claim C2 (failure envelope shape) -/

/-- C2: the claim states that every failure response is a JSON
envelope whose `error` field is an object carrying a stable code from
the fixed set; but route-level failures carry a plain string in
`error` (here `Invalid date format`), which is none of the documented
codes.  The theorem evaluates the APOD route at the failing input
`date=bad-date` on a cold path. -/
theorem c2_error_is_plain_string :
    (apodRoute Unit 0 (fun _ _ _ _ => ()) (some "bad-date") none none none).result =
      ApodResult.fail ⟨400, "Invalid date format",
        "Date must be in YYYY-MM-DD format"⟩ ∧
    "Invalid date format" ∉ errorCodes := by
  exact ⟨rfl, by decide⟩

/-! ## Claim C4 (meta.cached flag) -/

/-- C4: the claim states that `meta.cached` reflects whether the
served payload came from a populated cache entry; but the handlers
write the literal `true` into `meta.cached` on every successful
response, for all inputs and independent of any cache state, so the
flag cannot reflect cache population (the failing input is the very
first request served with an empty cache, which still reports
`cached: true`). -/
theorem c4_meta_cached_always_true (α : Type) (nowMs : Int) (today : String)
    (fetch : Option String → Option String → Option String → Option String → α)
    (fetchF : String → String → Bool → FeedPayload)
    (dq cq sq eq2 : Option String) (startQ endQ dqF : Option String) :
    (∀ d m, (apodRoute α nowMs fetch dq cq sq eq2).result = ApodResult.ok d m →
       m.cached = true) ∧
    (∀ d m, (neowsFeedRoute today nowMs fetchF startQ endQ dqF).result =
       FeedResult.ok d m → m.cached = true) := by
  constructor
  · intro d m h
    simp only [apodRoute] at h
    split at h
    · exact absurd h (by simp)
    · split at h
      · exact absurd h (by simp)
      · split at h
        · exact absurd h (by simp)
        · split at h
          · exact absurd h (by simp)
          · split at h
            · exact absurd h (by simp)
            · rcases h with ⟨rfl, rfl⟩  
              rfl
  · intro d m h
    simp only [neowsFeedRoute] at h
    split at h
    · exact absurd h (by simp)
    · split at h
      · exact absurd h (by simp)
      · split at h
        · exact absurd h (by simp)
        · split at h
          · exact absurd h (by simp)
          · rcases h with ⟨rfl, rfl⟩
            rfl

/-- C4 witness: a successful APOD run on a cold start still reports
`cached: true`. -/
theorem c4_witness :
    (apodRoute Nat 0 (fun _ _ _ _ => 42) none none none none).result =
      ApodResult.ok 42 { endpoint := "apod", cached := true, timestampMs := 0 } ∧
    ({ endpoint := "apod", cached := true, timestampMs := 0 } : ApodMeta).cached = true :=
  ⟨rfl,
   (c4_meta_cached_always_true Nat 0 "1970-01-01" (fun _ _ _ _ => 42)
      (fun _ _ _ => demoFeedEmpty) none none none none none none none).1 42
     { endpoint := "apod", cached := true, timestampMs := 0 } rfl⟩

/-! ## Claim C9 (EPIC future-date rejection) -/

/-- C9 counterexample: the claim quantifies over every request whose
date parameter is a well-formed future date, but the type check runs
first: a request with a future date and an invalid `type` is answered
with the type failure, not the future-date failure, so the claim as
stated fails on that input. -/
theorem c9_type_check_precedes :
    (epicImagesRoute Unit 0 "1970-01-01" "DEMO_KEY" (fun _ _ => [])
       (some "2024-01-01") (some "weird")).result =
      EpicResult.fail ⟨400, "Invalid type", "Type must be one of: natural, enhanced"⟩ ∧
    (⟨400, "Invalid type", "Type must be one of: natural, enhanced"⟩ : FailResp) ≠
      ⟨400, "Invalid date", "Date cannot be in the future"⟩ := by
  exact ⟨rfl, by decide⟩

/-- C9 amended: for every request to the EPIC images route whose type
parameter is absent or valid and whose date parameter is a well-formed
date strictly later than the current date, the handler returns the 400
future-date failure and makes no upstream call. -/
theorem c9_future_date_rejected (β : Type) (nowMs t : Int) (today apiKey d : String)
    (fetch : String → String → List (EpicImage β)) (typeQ : Option String)
    (htype : epicValidTypes.contains (toLowerStr (typeQ.getD "natural")) = true)
    (hparse : parseDateDay d = some t) (hfut : nowMs / msPerDay < t) :
    (epicImagesRoute β nowMs today apiKey fetch (some d) typeQ).result =
      EpicResult.fail ⟨400, "Invalid date", "Date cannot be in the future"⟩ ∧
    (epicImagesRoute β nowMs today apiKey fetch (some d) typeQ).upstreamCalled = false := by
  have hdne : d ≠ "" := ne_empty_of_parseDateDay hparse
  have hms : nowMs < t * msPerDay := by
    have h86 : msPerDay = 86400000 := rfl
    rw [h86] at hfut ⊢
    omega
  have heval : epicImagesRoute β nowMs today apiKey fetch (some d) typeQ =
      { result := EpicResult.fail ⟨400, "Invalid date", "Date cannot be in the future"⟩
        upstreamCalled := false } := by
    simp only [epicImagesRoute, htype, if_neg hdne, validateDateStr, hparse,
      Option.isSome_some, Option.getD_some, not_true, if_false, if_true]
    rw [if_pos hms]
  rw [heval]
  exact ⟨rfl, rfl⟩

/-- C9 witness: the amended statement at nowMs 0 (1970-01-01) and the
future date 2024-01-01 with the default type. -/
theorem c9_witness :
    (epicImagesRoute Unit 0 "1970-01-01" "DEMO_KEY" (fun _ _ => [])
       (some "2024-01-01") none).result =
      EpicResult.fail ⟨400, "Invalid date", "Date cannot be in the future"⟩ ∧
    (epicImagesRoute Unit 0 "1970-01-01" "DEMO_KEY" (fun _ _ => [])
       (some "2024-01-01") none).upstreamCalled = false :=
  c9_future_date_rejected Unit 0 19723 "1970-01-01" "DEMO_KEY" "2024-01-01"
    (fun _ _ => []) none (by decide) (by decide) (by decide)

/-! ## Claim C3 (image proxy allow-list) -/

/-- C3 counterexample: the claim states the proxy rejects exactly the
hostnames failing an exact-match or suffix-match against the allowed
domains; but the source also accepts any hostname merely containing an
allowed domain as a substring: `apod.nasa.gov.evil.com` fails the
exact-or-suffix test yet the request proceeds to the upstream fetch. -/
theorem c3_substring_hole :
    specAllowsDomain "apod.nasa.gov.evil.com" = false ∧
    (proxyImageRoute (fun _ => none) (fun _ => FetchOutcome.success [] none)
       (some ⟨"https://apod.nasa.gov.evil.com/x.jpg", "apod.nasa.gov.evil.com"⟩)).upstreamCalled
      = true := by
  exact ⟨by decide, by decide⟩

/-- C3 amended: the proxy rejects a request with the 403 failure and
no network call exactly when the hostname neither contains any allowed
domain as a substring nor ends with one; in particular
`evil.example.com` is rejected before any network call and
`apod.nasa.gov` proceeds to the upstream fetch on a cold cache. -/
theorem c3_allowlist (cache : String → Option CachedImage)
    (fetch : String → FetchOutcome) (url : ProxyUrl) (hfull : url.full ≠ "") :
    (isAllowedDomain url.hostname = false →
       (proxyImageRoute cache fetch (some url)).result =
         ProxyResult.failJson 403 "Forbidden domain" "Only NASA domains are allowed" ∧
       (proxyImageRoute cache fetch (some url)).upstreamCalled = false) ∧
    (isAllowedDomain url.hostname = true →
       (proxyImageRoute cache fetch (some url)).result ≠
         ProxyResult.failJson 403 "Forbidden domain" "Only NASA domains are allowed") ∧
    (isAllowedDomain url.hostname = true → cache ("image_" ++ url.full) = none →
       (proxyImageRoute cache fetch (some url)).upstreamCalled = true) ∧
    isAllowedDomain "evil.example.com" = false ∧
    isAllowedDomain "apod.nasa.gov" = true := by
  refine ⟨?_, ?_, ?_, by decide, by decide⟩
  · intro hdeny
    simp [proxyImageRoute, if_neg hfull, hdeny]
  · intro hallow
    simp only [proxyImageRoute, if_neg hfull, hallow, not_true, if_false]
    cases hc : cache ("image_" ++ url.full) with
    | some img => simp
    | none =>
      cases hf : fetch url.full with
      | success bytes ct => simp
      | notFound => simp
      | timeout => simp
      | otherError => simp
  · intro hallow hmiss
    simp only [proxyImageRoute, if_neg hfull, hallow, not_true, if_false, hmiss]
    cases hf : fetch url.full with
    | success bytes ct => rfl
    | notFound => rfl
    | timeout => rfl
    | otherError => rfl

/-- C3 witness: the amended statement at the two concrete hostnames of
the specification example, on a cold cache. -/
theorem c3_witness :
    ((proxyImageRoute (fun _ => none) (fun _ => FetchOutcome.success [] none)
        (some ⟨"https://evil.example.com/x.jpg", "evil.example.com"⟩)).result =
      ProxyResult.failJson 403 "Forbidden domain" "Only NASA domains are allowed") ∧
    ((proxyImageRoute (fun _ => none) (fun _ => FetchOutcome.success [] none)
        (some ⟨"https://apod.nasa.gov/x.jpg", "apod.nasa.gov"⟩)).upstreamCalled = true) :=
  ⟨((c3_allowlist (fun _ => none) (fun _ => FetchOutcome.success [] none)
      ⟨"https://evil.example.com/x.jpg", "evil.example.com"⟩ (by decide)).1
      (by decide)).1,
   (c3_allowlist (fun _ => none) (fun _ => FetchOutcome.success [] none)
      ⟨"https://apod.nasa.gov/x.jpg", "apod.nasa.gov"⟩ (by decide)).2.2.1
      (by decide) rfl⟩

/-! ## Claim C8 (cache flush preserves counters) -/

/-- C8: flushing the cache clears every entry, so afterwards the key
list is empty and every `get` misses (incrementing the miss counter),
while the cumulative hit and miss counters themselves are unchanged
and the statistics after the flush still report the process-lifetime
counts with zero keys. -/
theorem c8_flushAll_preserves_counters (V : Type) (c : Cache V) (now : Int) (k : String) :
    c.flushAll.keyList = [] ∧
    (c.flushAll.get now k).1 = none ∧
    ((c.flushAll.get now k).2.misses = c.misses + 1) ∧
    c.flushAll.hits = c.hits ∧
    c.flushAll.misses = c.misses ∧
    c.flushAll.stats = { hits := c.hits, misses := c.misses, keyCount := 0 } := by
  refine ⟨rfl, ?_, ?_, rfl, rfl, rfl⟩ <;>
    simp [Cache.flushAll, Cache.get, List.find?]
